import Mathlib

/-!
Shallow embedding of `src/isisdl/backend/database_helper.py`.

The SQLite tables are modelled as Lean lists of rows kept in rowid scan
order: an `INSERT OR REPLACE` deletes the conflicting row (if any) and
appends the new row with a fresh rowid, an `INSERT OR IGNORE` appends only
when no row with the conflicting primary key exists, `DELETE ... WHERE`
filters, and `fetchone` of a `SELECT ... WHERE` returns the first row in
scan order.  Python `None` results are `Option.none`; the Python `or`
fallback used by the typed config accessors treats the empty string as
falsy, which the model reproduces exactly.
-/

/-- A row of the `fileinfo` table
(`name, file_id, url, time, course_id, checksum, size`). -/
structure FileRecord where
  name : String
  file_id : String
  url : String
  time : Int
  course_id : Int
  checksum : String
  size : Int
deriving DecidableEq, Repr

/-- A row of the `courseinfo` table (`name, id`). -/
structure CourseRecord where
  name : String
  id : Int
deriving DecidableEq, Repr

/-- The `fileinfo` table in rowid scan order. -/
abbrev FileTable := List FileRecord

/-- The `courseinfo` table in rowid scan order. -/
abbrev CourseTable := List CourseRecord

/-- A row of the `config` table (`key, value`). -/
abbrev ConfigTable := List (String × String)

/-- `DatabaseHelper.add_pre_container`: `INSERT OR REPLACE INTO fileinfo`.
The conflicting row (same `file_id` primary key) is deleted and the new row
is inserted with a fresh rowid, i.e. appended in scan order. -/
def add_pre_container (f : FileRecord) (tab : FileTable) : FileTable :=
  tab.filter (fun r => r.file_id ≠ f.file_id) ++ [f]

/-- The value `DatabaseHelper.add_pre_container` returns to its caller: the
Python function has no `return` statement, so it always returns `None`,
modelled as `none` (a returned boolean would be `some b`). -/
def add_pre_container_ret (f : FileRecord) (tab : FileTable) : Option Bool :=
  none

/-- `DatabaseHelper.delete_by_file_id`: `DELETE FROM fileinfo WHERE file_id = ?`. -/
def delete_by_file_id (fid : String) (tab : FileTable) : FileTable :=
  tab.filter (fun r => r.file_id ≠ fid)

/-- `DatabaseHelper.get_name_by_checksum` via `_get_attr_by_equal`:
`SELECT name FROM fileinfo WHERE checksum = ?` with `fetchone`, returning
the first match in scan order or `None`. -/
def get_name_by_checksum (c : String) (tab : FileTable) : Option String :=
  (tab.find? (fun r => r.checksum = c)).map (fun r => r.name)

/-- `DatabaseHelper.get_size_from_file_id` via `_get_attr_by_equal`:
`SELECT size FROM fileinfo WHERE file_id = ?` with `fetchone`. -/
def get_size_from_file_id (fid : String) (tab : FileTable) : Option Int :=
  (tab.find? (fun r => r.file_id = fid)).map (fun r => r.size)

/-- `DatabaseHelper.add_course`: `INSERT OR IGNORE INTO courseinfo`.  The
insert happens only when no row with the conflicting primary key `id`
exists; otherwise the statement is a no-op. -/
def add_course (c : CourseRecord) (tab : CourseTable) : CourseTable :=
  if tab.any (fun r => r.id = c.id) then tab else tab ++ [c]

/-- The row pairs produced by the query inside
`DatabaseHelper.get_checksums_per_course`:
`SELECT courseinfo.name, checksum FROM fileinfo INNER JOIN courseinfo ON
fileinfo.course_id = courseinfo.id`. -/
def get_checksums_per_course (files : FileTable) (courses : CourseTable) :
    List (String × String) :=
  files.flatMap (fun f =>
    (courses.filter (fun c => c.id = f.course_id)).map
      (fun c => (c.name, f.checksum)))

/-- The `defaultdict(set)` built by `DatabaseHelper.get_checksums_per_course`,
viewed as the set of checksums stored under each course name. -/
def checksums_per_course_dict (files : FileTable) (courses : CourseTable) :
    String → Finset String :=
  fun n =>
    (((get_checksums_per_course files courses).filter
        (fun p => p.1 = n)).map Prod.snd).toFinset

/-- `ConfigHelper._set`: `INSERT OR REPLACE INTO config` on the unique
column `key`. -/
def config_set (k v : String) (cfg : ConfigTable) : ConfigTable :=
  cfg.filter (fun p => p.1 ≠ k) ++ [(k, v)]

/-- `ConfigHelper._get`: `SELECT value FROM config WHERE key = ?` with
`fetchone`, returning `None` when no row matches. -/
def config_get (k : String) (cfg : ConfigTable) : Option String :=
  (cfg.find? (fun p => p.1 = k)).map Prod.snd

/-- Python `x or d` where `x` is `Optional[str]` and `d` is `str`: both
`None` and the falsy empty string fall through to the default. -/
def py_str_or (x : Option String) (d : String) : String :=
  match x with
  | none => d
  | some s => if s = "" then d else s

/-- Python `x or None` where `x` is `Optional[str]`: the falsy empty string
collapses to `None`. -/
def py_str_or_none (x : Option String) : Option String :=
  match x with
  | none => none
  | some s => if s = "" then none else some s

/-- `ConfigHelper.default_filename_scheme`. -/
def default_filename_scheme : String := "0"

/-- `ConfigHelper.default_update_policy`. -/
def default_update_policy : String := "0"

/-- `ConfigHelper.default_telemetry`. -/
def default_telemetry : String := "1"

/-- `ConfigHelper.default_throttle_rate`: returns `None`. -/
def default_throttle_rate : Option String := none

/-- `ConfigHelper.set_filename_scheme`. -/
def set_filename_scheme (num : String) (cfg : ConfigTable) : ConfigTable :=
  config_set "filename_scheme" num cfg

/-- `ConfigHelper.get_filename_scheme`:
`self._get("filename_scheme") or self.default_filename_scheme()`. -/
def get_filename_scheme (cfg : ConfigTable) : String :=
  py_str_or (config_get "filename_scheme" cfg) default_filename_scheme

/-- `ConfigHelper.set_update_policy`. -/
def set_update_policy (value : String) (cfg : ConfigTable) : ConfigTable :=
  config_set "update_policy" value cfg

/-- `ConfigHelper.get_update_policy`:
`self._get("update_policy") or self.default_update_policy()`. -/
def get_update_policy (cfg : ConfigTable) : String :=
  py_str_or (config_get "update_policy" cfg) default_update_policy

/-- `ConfigHelper.set_telemetry`. -/
def set_telemetry (num : String) (cfg : ConfigTable) : ConfigTable :=
  config_set "telemetry" num cfg

/-- `ConfigHelper.get_telemetry`:
`self._get("telemetry") or self.default_telemetry()`. -/
def get_telemetry (cfg : ConfigTable) : String :=
  py_str_or (config_get "telemetry" cfg) default_telemetry

/-- `ConfigHelper.set_throttle_rate`: stores the value only when it is not
`None`; `set_throttle_rate(None)` executes no statement at all. -/
def set_throttle_rate (num : Option String) (cfg : ConfigTable) : ConfigTable :=
  match num with
  | some v => config_set "throttle_rate" v cfg
  | none => cfg

/-- Decimal value of a digit character, `none` otherwise. -/
def digit_val (c : Char) : Option Nat :=
  if c.isDigit then some (c.toNat - 48) else none

/-- Accumulate a decimal digit string into a natural number; `none` when a
non-digit occurs. -/
def digits_to_nat (acc : Nat) : List Char → Option Nat
  | [] => some acc
  | c :: cs =>
    match digit_val c with
    | some d => digits_to_nat (acc * 10 + d) cs
    | none => none

/-- Python `int(s)` on an optional leading minus sign followed by decimal
digits; `none` models the `ValueError` raised on any other text. -/
def py_int_of_string (s : String) : Option Int :=
  match s.data with
  | [] => none
  | List.cons c cs =>
    if c = '-' then
      match cs with
      | [] => none
      | _ => (digits_to_nat 0 cs).map (fun n => -(n : Int))
    else (digits_to_nat 0 (List.cons c cs)).map (fun n => (n : Int))

/-- `ConfigHelper.get_throttle_rate`: applies the Python `or None` fallback
to the stored text, then `int(value)`; a non-integer stored text makes
`int` raise, modelled as `Except.error ()`. -/
def get_throttle_rate (cfg : ConfigTable) : Except Unit (Option Int) :=
  match py_str_or_none (config_get "throttle_rate" cfg) with
  | none => Except.ok none
  | some v =>
    match py_int_of_string v with
    | some n => Except.ok (some n)
    | none => Except.error ()

/-- A table that may or may not exist in the schema: `none` means absent,
`some rows` means present with the given rows. -/
def create_if_absent {α : Type} (t : Option (List α)) : Option (List α) :=
  match t with
  | none => some []
  | some rows => some rows

/-- The schema state owned by `DatabaseHelper`: its two tables, each
possibly absent. -/
structure FileDB where
  fileinfo : Option FileTable
  courseinfo : Option CourseTable
deriving DecidableEq, Repr

/-- The schema state owned by `ConfigHelper`: the `config` table, possibly
absent. -/
structure ConfigDB where
  config : Option ConfigTable
deriving DecidableEq, Repr

/-- `DatabaseHelper.create_default_tables`: two
`CREATE TABLE IF NOT EXISTS` statements, creating each missing table empty
and leaving an existing table untouched. -/
def DatabaseHelper.create_default_tables (s : FileDB) : FileDB :=
  { fileinfo := create_if_absent s.fileinfo
    courseinfo := create_if_absent s.courseinfo }

/-- `ConfigHelper.create_default_tables`: `CREATE TABLE IF NOT EXISTS config`. -/
def ConfigHelper.create_default_tables (s : ConfigDB) : ConfigDB :=
  { config := create_if_absent s.config }

/-- `ConfigHelper.delete_config`: `DROP table config` (inside its own lock
block), then a call to `create_default_tables`. -/
def ConfigHelper.delete_config (s : ConfigDB) : ConfigDB :=
  ConfigHelper.create_default_tables { s with config := none }

/-- The events of interest on the shared connection for the lock-trace
model: lock acquisition and release, the `DROP table config` statement, and
the `CREATE TABLE IF NOT EXISTS config` statement. -/
inductive DBEvent where
  | acquire
  | release
  | drop_config
  | create_config_if_absent
deriving DecidableEq, Repr

/-- The event trace of `ConfigHelper.create_default_tables`: the `CREATE`
statement runs inside its own `with self.lock` block. -/
def ConfigHelper.create_default_tables_trace : List DBEvent :=
  [DBEvent.acquire, DBEvent.create_config_if_absent, DBEvent.release]

/-- The event trace of `ConfigHelper.delete_config`: the `DROP` statement
runs inside a `with self.lock` block that ends before
`create_default_tables` is called, and that call acquires the lock again. -/
def ConfigHelper.delete_config_trace : List DBEvent :=
  [DBEvent.acquire, DBEvent.drop_config, DBEvent.release] ++
    ConfigHelper.create_default_tables_trace

/-- How many times the lock is held after a trace prefix (the class-level
lock is not reentrant, and every block here acquires it at most once, so
this is 0 or 1). -/
def lock_depth (es : List DBEvent) : Int :=
  es.foldl
    (fun d e =>
      match e with
      | DBEvent.acquire => d + 1
      | DBEvent.release => d - 1
      | _ => d)
    0

/-- Whether the `config` table exists after a trace prefix, starting from a
state where it exists iff `start`. -/
def config_present_after (start : Bool) (es : List DBEvent) : Bool :=
  es.foldl
    (fun p e =>
      match e with
      | DBEvent.drop_config => false
      | DBEvent.create_config_if_absent => true
      | _ => p)
    start

/-- The at-most-one-row-per-`file_id` invariant of the `fileinfo` table. -/
def unique_file_ids (tab : FileTable) : Prop :=
  (tab.map (fun r => r.file_id)).Nodup

/-- Concrete record used in examples: first upsert of Scenario A. -/
def slidesA : FileRecord :=
  { name := "slides.pdf", file_id := "abc123", url := "u", time := 0,
    course_id := 7, checksum := "deadbeef", size := 1024 }

/-- Concrete record used in examples: second upsert of Scenario A, same
`file_id`, new checksum. -/
def slidesB : FileRecord :=
  { name := "slides.pdf", file_id := "abc123", url := "u", time := 1,
    course_id := 7, checksum := "feedface", size := 1024 }

/-- Concrete record whose checksum is `"k"` but whose `file_id` is not. -/
def rowChk : FileRecord :=
  { name := "n", file_id := "f1", url := "u", time := 0,
    course_id := 1, checksum := "k", size := 2 }

/-- Concrete record whose `course_id` matches no registered course. -/
def rowOrphan : FileRecord :=
  { name := "o", file_id := "f9", url := "u", time := 0,
    course_id := 99, checksum := "c5", size := 3 }

/-- Concrete course rows sharing an id, used in examples. -/
def courseA : CourseRecord := { name := "Algebra", id := 7 }

/-- Second concrete course row with the same id as `courseA`. -/
def courseB : CourseRecord := { name := "Analysis", id := 7 }

theorem find?_eq_head?_filter {α : Type} (p : α → Bool) (l : List α) :
    l.find? p = (l.filter p).head? := by
  induction l with
  | nil => rfl
  | cons a t ih =>
    cases h : p a with
    | true =>
      rw [List.find?_cons_of_pos t h, List.filter_cons_of_pos h, List.head?_cons]
    | false =>
      rw [List.find?_cons_of_neg t (by simp [h]),
        List.filter_cons_of_neg (by simp [h])]
      exact ih

theorem filter_eq_of_filter_ne (key : String) (tab : FileTable) :
    (tab.filter (fun r => r.file_id ≠ key)).filter
        (fun r => r.file_id = key) = [] := by
  rw [List.filter_filter, List.filter_eq_nil_iff]
  intro a _
  simp

theorem filter_eq_add_pre_container (f : FileRecord) (tab : FileTable) :
    (add_pre_container f tab).filter (fun r => r.file_id = f.file_id) = [f] := by
  unfold add_pre_container
  rw [List.filter_append, filter_eq_of_filter_ne f.file_id tab]
  simp [List.filter_cons]

theorem unique_file_ids_add_pre_container (f : FileRecord) (tab : FileTable)
    (h : unique_file_ids tab) :
    unique_file_ids (add_pre_container f tab) := by
  unfold unique_file_ids add_pre_container
  rw [List.map_append, List.nodup_append]
  refine ⟨?_, ?_, ?_⟩
  · exact List.Nodup.sublist
      (List.Sublist.map (fun r => r.file_id) (List.filter_sublist tab)) h
  · simp
  · intro x hx
    simp only [List.mem_map, List.mem_filter] at hx
    obtain ⟨r, ⟨hr, hne⟩, hfx⟩ := hx
    simp only [List.map_cons, List.map_nil, List.mem_singleton]
    intro hcontra
    rw [← hfx] at hcontra
    have hne2 : r.file_id ≠ f.file_id := by simpa using hne
    exact hne2 hcontra

theorem unique_file_ids_delete_by_file_id (fid : String) (tab : FileTable)
    (h : unique_file_ids tab) :
    unique_file_ids (delete_by_file_id fid tab) := by
  unfold unique_file_ids delete_by_file_id
  exact List.Nodup.sublist
    (List.Sublist.map (fun r => r.file_id) (List.filter_sublist tab)) h

theorem config_get_set_same (cfg : ConfigTable) (k v : String) :
    config_get k (config_set k v cfg) = some v := by
  unfold config_get config_set
  rw [List.find?_append]
  have h : (cfg.filter (fun p => p.1 ≠ k)).find? (fun p => p.1 = k) = none := by
    rw [List.find?_eq_none]
    intro x hx
    simp only [List.mem_filter] at hx
    simpa using hx.2
  rw [h, Option.none_or, List.find?_cons_of_pos _ (by simp)]
  rfl

/-- C1: upserting two records with the same file_id leaves the fileinfo
table with exactly one row for that file_id, equal to the second record in
every column, and the at-most-one-row-per-file_id invariant is preserved
by every fileinfo-mutating operation. -/
theorem upsert_last_write_wins (tab : FileTable) (r1 r2 : FileRecord)
    (h : r1.file_id = r2.file_id) :
    (add_pre_container r2 (add_pre_container r1 tab)).filter
        (fun r => r.file_id = r2.file_id) = [r2]
    ∧ (unique_file_ids tab →
        unique_file_ids (add_pre_container r2 (add_pre_container r1 tab)))
    ∧ (∀ f, unique_file_ids tab → unique_file_ids (add_pre_container f tab))
    ∧ (∀ fid, unique_file_ids tab →
        unique_file_ids (delete_by_file_id fid tab)) := by
  refine ⟨filter_eq_add_pre_container r2 _, ?_, ?_, ?_⟩
  · intro hu
    exact unique_file_ids_add_pre_container r2 _
      (unique_file_ids_add_pre_container r1 tab hu)
  · intro f hu
    exact unique_file_ids_add_pre_container f tab hu
  · intro fid hu
    exact unique_file_ids_delete_by_file_id fid tab hu

/-- Witness for C1 at two concrete records sharing file_id "abc123". -/
theorem upsert_last_write_wins_witness :
    (add_pre_container slidesB (add_pre_container slidesA [])).filter
        (fun r => r.file_id = slidesB.file_id) = [slidesB] :=
  (upsert_last_write_wins [] slidesA slidesB rfl).1

/-- C2: when exactly one fileinfo row has checksum c,
get_name_by_checksum c returns that row's name; when no row has checksum
c it returns none; and the concrete Scenario A (re-upsert of file_id
"abc123" with a new checksum) behaves as specified. -/
theorem lookup_name_by_checksum_spec (tab : FileTable) (c : String) :
    (∀ r0 : FileRecord, tab.filter (fun r => r.checksum = c) = [r0] →
        get_name_by_checksum c tab = some r0.name)
    ∧ ((∀ r ∈ tab, r.checksum ≠ c) → get_name_by_checksum c tab = none)
    ∧ get_name_by_checksum "deadbeef"
        (add_pre_container slidesB (add_pre_container slidesA [])) = none
    ∧ get_name_by_checksum "feedface"
        (add_pre_container slidesB (add_pre_container slidesA []))
      = some "slides.pdf" := by
  refine ⟨?_, ?_, by decide, by decide⟩
  · intro r0 hr
    unfold get_name_by_checksum
    rw [find?_eq_head?_filter, hr, List.head?_cons]
    rfl
  · intro hnone
    unfold get_name_by_checksum
    have h : tab.find? (fun r => r.checksum = c) = none := by
      rw [List.find?_eq_none]
      intro x hx
      simpa using hnone x hx
    rw [h]
    rfl

/-- Witness for C2 at a table holding exactly one row with checksum "k". -/
theorem lookup_name_by_checksum_spec_witness :
    get_name_by_checksum "k" [rowChk] = some rowChk.name :=
  (lookup_name_by_checksum_spec [rowChk] "k").1 rowChk (by decide)

/-- C3 counterexample: after setting update_policy to the empty string the
key has a row in the config table, yet the typed getter still returns the
default "0" -- so the default is not returned only on true absence. -/
theorem update_policy_default_despite_key_set :
    config_get "update_policy" (set_update_policy "" []) = some ""
    ∧ get_update_policy (set_update_policy "" []) = default_update_policy :=
  ⟨by decide, by decide⟩

/-- C3 amended: the generic get after set returns the set value; each
typed getter returns its documented default when its key is truly absent,
but it also substitutes the default whenever the stored text is the falsy
empty string; a non-empty stored text is returned as stored; and after
delete_config() the table exists and is empty, so every typed getter
reports its default again. -/
theorem config_defaults_spec (cfg : ConfigTable) (k v : String) :
    config_get k (config_set k v cfg) = some v
    ∧ (config_get "update_policy" cfg = none →
        get_update_policy cfg = default_update_policy)
    ∧ (config_get "update_policy" cfg = some "" →
        get_update_policy cfg = default_update_policy)
    ∧ (∀ w, w ≠ "" → config_get "update_policy" cfg = some w →
        get_update_policy cfg = w)
    ∧ (config_get "telemetry" cfg = none →
        get_telemetry cfg = default_telemetry)
    ∧ (∀ w, w ≠ "" → config_get "telemetry" cfg = some w →
        get_telemetry cfg = w)
    ∧ (config_get "filename_scheme" cfg = none →
        get_filename_scheme cfg = default_filename_scheme)
    ∧ (∀ w, w ≠ "" → config_get "filename_scheme" cfg = some w →
        get_filename_scheme cfg = w)
    ∧ (config_get "throttle_rate" cfg = none →
        get_throttle_rate cfg = Except.ok none)
    ∧ (∀ s : ConfigDB, (ConfigHelper.delete_config s).config = some [])
    ∧ get_update_policy [] = default_update_policy
    ∧ get_telemetry [] = default_telemetry
    ∧ get_filename_scheme [] = default_filename_scheme
    ∧ get_throttle_rate [] = Except.ok none := by
  refine ⟨config_get_set_same cfg k v, ?_, ?_, ?_, ?_, ?_, ?_, ?_, ?_,
    fun s => rfl, rfl, rfl, rfl, rfl⟩
  · intro h
    simp [get_update_policy, h, py_str_or]
  · intro h
    simp [get_update_policy, h, py_str_or]
  · intro w hw h
    simp [get_update_policy, h, py_str_or, hw]
  · intro h
    simp [get_telemetry, h, py_str_or]
  · intro w hw h
    simp [get_telemetry, h, py_str_or, hw]
  · intro h
    simp [get_filename_scheme, h, py_str_or]
  · intro w hw h
    simp [get_filename_scheme, h, py_str_or, hw]
  · intro h
    simp [get_throttle_rate, h, py_str_or_none]

/-- Witness for C3 amended: Scenario B's set-then-get on update_policy. -/
theorem config_defaults_spec_witness :
    config_get "update_policy" (set_update_policy "2" []) = some "2"
    ∧ get_update_policy (set_update_policy "2" []) = "2" := by
  refine ⟨(config_defaults_spec [] "update_policy" "2").1, ?_⟩
  exact (config_defaults_spec (set_update_policy "2" []) "x" "y").2.2.2.1
    "2" (by decide) (by decide)

/-- C4 (refuted by the code): the event trace of delete_config acquires
the global lock twice, not once, and after its first three events
(acquire, drop, release) the lock is free while the config table is
dropped and not yet recreated, so a concurrent reader scheduled there
observes a missing table. -/
theorem delete_config_two_lock_acquisitions :
    ConfigHelper.delete_config_trace.count DBEvent.acquire = 2
    ∧ lock_depth (ConfigHelper.delete_config_trace.take 3) = 0
    ∧ config_present_after true (ConfigHelper.delete_config_trace.take 3) = false
    ∧ DBEvent.drop_config ∈ ConfigHelper.delete_config_trace.take 3
    ∧ DBEvent.create_config_if_absent ∉ ConfigHelper.delete_config_trace.take 3 := by
  decide

/-- C5 counterexample: a fileinfo row whose course_id matches no
registered course contributes its checksum under no course name at all,
so its checksum is dropped from the result. -/
theorem checksum_dropped_for_unresolvable_course :
    rowOrphan.checksum = "c5"
    ∧ get_checksums_per_course [rowOrphan] [] = [] :=
  ⟨rfl, rfl⟩

/-- C5 amended: the grouped result holds checksum s under course name n
exactly when some fileinfo row with checksum s has course_id equal to the
id of a courseinfo row named n; fileinfo rows whose course_id resolves to
no registered course are omitted by the inner join. -/
theorem checksums_per_course_characterization (files : FileTable)
    (courses : CourseTable) (n s : String) :
    s ∈ checksums_per_course_dict files courses n ↔
      ∃ f, f ∈ files ∧ f.checksum = s
        ∧ ∃ c, c ∈ courses ∧ c.id = f.course_id ∧ c.name = n := by
  unfold checksums_per_course_dict get_checksums_per_course
  simp only [List.mem_toFinset, List.mem_map, List.mem_filter,
    List.mem_flatMap, decide_eq_true_eq, Prod.mk.injEq]
  constructor
  · rintro ⟨p, ⟨⟨f, hf, c, ⟨hc, hcid⟩, rfl⟩, hp1⟩, hp2⟩
    exact ⟨f, hf, hp2, c, hc, hcid, hp1⟩
  · rintro ⟨f, hf, hs, c, hc, hcid, hn⟩
    exact ⟨(c.name, f.checksum), ⟨⟨f, hf, c, ⟨hc, hcid⟩, rfl⟩, hn⟩, hs⟩

/-- C6 counterexample: upserting a record whose file_id already has a row
must per the claim return the boolean true; the code's upsert body has no
return statement and yields Python None, which is not true. -/
theorem upsert_returns_no_boolean :
    (∃ r, r ∈ [slidesA] ∧ r.file_id = slidesB.file_id)
    ∧ add_pre_container_ret slidesB [slidesA] ≠ some true := by
  decide

/-- C6 amended: upsert replaces any existing row with the same file_id
(the post state holds exactly the new row for that id) and commits, but it
returns None rather than a boolean reporting whether a prior row existed. -/
theorem upsert_replaces_but_returns_none (f : FileRecord) (tab : FileTable) :
    add_pre_container_ret f tab = none
    ∧ (add_pre_container f tab).filter (fun r => r.file_id = f.file_id) = [f] :=
  ⟨rfl, filter_eq_add_pre_container f tab⟩

/-- C7 counterexample: the only deletion operation is keyed on file_id;
deleting with a key equal to a row's checksum but not its file_id leaves
the row in place, so a row with that checksum remains afterwards. -/
theorem delete_by_checksum_unsupported :
    rowChk.checksum = "k"
    ∧ rowChk.file_id ≠ "k"
    ∧ delete_by_file_id "k" [rowChk] = [rowChk] := by
  decide

/-- C7 amended: delete_by_file_id removes exactly the rows whose file_id
equals the key -- a row survives iff its file_id differs -- and no
checksum-keyed deletion is provided, so rows matching the key only by
checksum are kept. -/
theorem delete_by_file_id_membership (fid : String) (tab : FileTable)
    (r : FileRecord) :
    r ∈ delete_by_file_id fid tab ↔ r ∈ tab ∧ r.file_id ≠ fid := by
  unfold delete_by_file_id
  simp [List.mem_filter]

theorem add_course_noop_of_any (tab : CourseTable) (c2 : CourseRecord)
    (hany : tab.any (fun r => r.id = c2.id) = true) :
    add_course c2 tab = tab := by
  unfold add_course
  simp [hany]

/-- C8: registering a course_id that is already registered, with the same
or a different name, leaves the courseinfo table unchanged -- the first
registration wins and a repeated register is a silent no-op. -/
theorem add_course_idempotent (tab : CourseTable) (c c2 : CourseRecord)
    (h : c2.id = c.id) :
    add_course c2 (add_course c tab) = add_course c tab := by
  apply add_course_noop_of_any
  rw [List.any_eq_true]
  unfold add_course
  by_cases htab : tab.any (fun r => r.id = c.id) = true
  · rw [if_pos htab]
    obtain ⟨r, hr, hid⟩ := List.any_eq_true.mp htab
    refine ⟨r, hr, ?_⟩
    simp only [decide_eq_true_eq] at hid ⊢
    rw [hid, h]
  · rw [if_neg htab]
    refine ⟨c, by simp, ?_⟩
    simp [h]

/-- Witness for C8: re-registering id 7 under a different name is a no-op. -/
theorem add_course_idempotent_witness :
    add_course courseB (add_course courseA []) = add_course courseA [] :=
  add_course_idempotent [] courseA courseB rfl

theorem create_if_absent_idem {α : Type} (t : Option (List α)) :
    create_if_absent (create_if_absent t) = create_if_absent t := by
  cases t <;> rfl

/-- C9: startup schema creation is idempotent -- running
create_default_tables on a state whose tables already exist changes
nothing, re-running it is the same as running it once, and every existing
row of every table is left unchanged. -/
theorem create_default_tables_idempotent (s : FileDB) (t : ConfigDB) :
    DatabaseHelper.create_default_tables (DatabaseHelper.create_default_tables s)
        = DatabaseHelper.create_default_tables s
    ∧ ConfigHelper.create_default_tables (ConfigHelper.create_default_tables t)
        = ConfigHelper.create_default_tables t
    ∧ (∀ rows, s.fileinfo = some rows →
        (DatabaseHelper.create_default_tables s).fileinfo = some rows)
    ∧ (∀ rows, s.courseinfo = some rows →
        (DatabaseHelper.create_default_tables s).courseinfo = some rows)
    ∧ (∀ rows, t.config = some rows →
        (ConfigHelper.create_default_tables t).config = some rows) := by
  refine ⟨?_, ?_, ?_, ?_, ?_⟩
  · simp [DatabaseHelper.create_default_tables, create_if_absent_idem]
  · simp [ConfigHelper.create_default_tables, create_if_absent_idem]
  · intro rows h
    simp [DatabaseHelper.create_default_tables, h, create_if_absent]
  · intro rows h
    simp [DatabaseHelper.create_default_tables, h, create_if_absent]
  · intro rows h
    simp [ConfigHelper.create_default_tables, h, create_if_absent]

/-- Witness for C9 at a schema whose tables exist and hold rows. -/
theorem create_default_tables_idempotent_witness :
    (DatabaseHelper.create_default_tables
        { fileinfo := some [rowChk], courseinfo := some [courseA] }).fileinfo
      = some [rowChk] :=
  (create_default_tables_idempotent
      { fileinfo := some [rowChk], courseinfo := some [courseA] }
      { config := some [] }).2.2.1 [rowChk] rfl

/-- C10: set_throttle_rate(None) leaves the config table completely
unchanged, so a previously stored throttle rate is still returned by
get_throttle_rate afterwards. -/
theorem set_throttle_rate_none_noop (cfg : ConfigTable) :
    set_throttle_rate none cfg = cfg
    ∧ ∀ n : Int, get_throttle_rate cfg = Except.ok (some n) →
        get_throttle_rate (set_throttle_rate none cfg) = Except.ok (some n) :=
  ⟨rfl, fun _ h => h⟩

/-- Witness for C10 with a stored throttle rate of 42. -/
theorem set_throttle_rate_none_noop_witness :
    get_throttle_rate (set_throttle_rate none (config_set "throttle_rate" "42" []))
      = Except.ok (some 42) := by
  refine (set_throttle_rate_none_noop (config_set "throttle_rate" "42" [])).2 42 ?_
  have h : config_get "throttle_rate" (config_set "throttle_rate" "42" [])
      = some "42" := by decide
  have h2 : py_int_of_string "42" = some 42 := by decide
  simp [get_throttle_rate, h, py_str_or_none, h2]
